import Mathlib

/-!
Verification development for `kw-ad-disapproval-checker.js`
(google-ads-disapproval-checker-mcc).

The script is shallowly embedded: every definition below transcribes a
function or code path of the JavaScript source.  JavaScript `null` /
`undefined` values are modelled as `Option.none`; strings are Lean
`String`s; a JavaScript string is *truthy* iff it is non-empty.
Side effects (logging, `MailApp.sendEmail`, `executeInParallel`) are
modelled by returning explicit action / outcome values.
-/

/-- JavaScript truthiness of a nullable string: `null`/`undefined` and the
empty string are falsy, every other string is truthy. -/
def truthyOpt : Option String → Bool
  | none => false
  | some s => s != ""

/-- JavaScript `String(v)` applied to a nullable string: `String(null)` is
the text `"null"` (the source compares `String(polStatus) === 'APPROVED'`
after a `safeCall_` that yields `null` on failure). -/
def jsStringOfNullable : Option String → String
  | none => "null"
  | some s => s

/-- Whitespace as stripped by JavaScript `String.prototype.trim` (ASCII
range; the Unicode space classes play no role in these claims). -/
def isJsSpace (c : Char) : Bool :=
  c = ' ' || c = '\t' || c = '\n' || c = '\r' || c = '\x0b' || c = '\x0c'

/-- Models `s.trim()`: strip leading and trailing whitespace. -/
def jsTrim (s : String) : String :=
  String.mk (((s.toList.dropWhile isJsSpace).reverse.dropWhile isJsSpace).reverse)

/-- The twelve enumerable-or-not members every plain object `{}` inherits
from `Object.prototype`; `seen[v]` in `normalizeReasons_` is truthy for
each of them even before any insertion. -/
def objectPrototypeKeys : List String :=
  ["constructor", "hasOwnProperty", "isPrototypeOf", "propertyIsEnumerable",
   "toLocaleString", "toString", "valueOf", "__defineGetter__",
   "__defineSetter__", "__lookupGetter__", "__lookupSetter__", "__proto__"]

/-- Lookup `seen[v]` where `seen` started as the object literal `\x7b\x7d` and
`own` holds the keys assigned so far: truthy when `v` is an own key or an
inherited `Object.prototype` member. -/
def jsEmptyObjHas (own : List String) (v : String) : Bool :=
  own.contains v || objectPrototypeKeys.contains v

/-- The loop of `normalizeReasons_`: for each element `x`,
`var v = String(arr[i] || '').trim(); if (v && !seen[v]) \x7b seen[v] = true; out.push(v); \x7d`. -/
def normalizeLoop (own : List String) : List String → List String
  | [] => []
  | x :: rest =>
      let v := jsTrim x
      if v != "" && !(jsEmptyObjHas own v) then
        v :: normalizeLoop (v :: own) rest
      else
        normalizeLoop own rest

/-- Models `normalizeReasons_(arr)`: trim each entry, drop empties, and keep an
entry only when `seen[v]` is falsy — where `seen` is the plain object `\x7b\x7d`,
so inherited `Object.prototype` keys are already truthy. -/
def normalizeReasons_ (arr : List String) : List String :=
  normalizeLoop [] arr

/-- Single-pass global replacement of the single character `c` by `rep`,
modelling `String.prototype.replace` with a one-character global regexp
(the replacement text is not rescanned). -/
def replChar (c : Char) (rep : List Char) : List Char → List Char
  | [] => []
  | x :: rest => (if x = c then rep else [x]) ++ replChar c rep rest

/-- Models `escHtml_(v)`: `''` for `null`/`undefined`, otherwise
`String(v).replace(/&/g,'&amp;').replace(/</g,'&lt;').replace(/>/g,'&gt;')`. -/
def escHtml_ (v : Option String) : String :=
  match v with
  | none => ""
  | some s =>
      String.mk (replChar '>' "&gt;".toList
        (replChar '<' "&lt;".toList
          (replChar '&' "&amp;".toList s.toList)))

/-- Models `td_(v)`: one table cell whose content is `escHtml_(v)`. -/
def td_ (v : Option String) : String :=
  "<td style=\"vertical-align:top;border-top:1px solid #eee;\">" ++ escHtml_ v ++ "</td>"

/-!  ## Policy extraction (`extractPolicyInfo_`)  -/

/-- One element of `entity.getPolicyTopics()`, with each accessor chain of
the source pre-evaluated to its nullable string result: `none` stands for
an absent accessor, a thrown call, or an `undefined` field. -/
structure RawTopic where
  getTopic : Option String
  getId : Option String
  topicField : Option String
  idField : Option String
  /-- The text extracted from each entry of the evidence list
  (`ev.text`, else `ev.getText()`); `none` when the evidence yields
  nothing (no text, accessor absent, or the call threw). -/
  evidences : List (Option String)
  deriving Repr, DecidableEq

/-- The first truthy value of a JavaScript `if (!name) name = …;` fallback
chain. -/
def firstTruthy : List (Option String) → Option String
  | [] => none
  | none :: rest => firstTruthy rest
  | some s :: rest => if s = "" then firstTruthy rest else some s

/-- The name pushed for a topic: `getTopic()`, else `getId()`, else
`t.topic`, else `t.id`, else the sentinel `'Unspecified Policy Topic'`. -/
def topicNameOf (t : RawTopic) : String :=
  (firstTruthy [t.getTopic, t.getId, t.topicField, t.idField]).getD
    "Unspecified Policy Topic"

/-- Models `PolicyInfo` as returned by `extractPolicyInfo_`. -/
structure PolicyInfo where
  topics : List String
  reasons : List String
  deriving Repr, DecidableEq

/-- Models `extractPolicyInfo_(entity)`: `none` models an entity whose
`getPolicyTopics` accessor is absent, throws, or returns `null`
(the source then keeps both output arrays empty); otherwise the topic
names and evidence texts are collected in order and normalized. -/
def extractPolicyInfo_ (pt : Option (List RawTopic)) : PolicyInfo :=
  match pt with
  | none => { topics := normalizeReasons_ [], reasons := normalizeReasons_ [] }
  | some ts =>
      { topics := normalizeReasons_ (ts.map topicNameOf)
        reasons := normalizeReasons_ (ts.flatMap (fun t => t.evidences.filterMap id)) }

/-!  ## Per-account worker (`getStats`)  -/

/-- One ad as fetched inside the worker loop, with every field access of
the source pre-evaluated: `policyStatus` is `safeCall_(ad.getPolicyApprovalStatus, ad)`
(`none` on a failed call), the display fields are the nullable results of
`ad.getType && ad.getType()` etc., and `policyTopics` feeds
`extractPolicyInfo_`. -/
structure AdInput where
  policyStatus : Option String
  type : Option String
  campaign : Option String
  adGroup : Option String
  policyTopics : Option (List RawTopic)
  deriving Repr, DecidableEq

/-- One keyword as fetched inside the worker loop (`kw.getText()` is called
unguarded, so a fetched keyword always carries a text). -/
structure KwInput where
  status : Option String
  text : String
  matchType : Option String
  campaign : Option String
  adGroup : Option String
  policyTopics : Option (List RawTopic)
  deriving Repr, DecidableEq

/-- One asset as fetched inside the worker loop; every field is read
through `safeCall_`. -/
structure AssetInput where
  status : Option String
  assetType : Option String
  name : Option String
  policyTopics : Option (List RawTopic)
  deriving Repr, DecidableEq

/-- The record pushed onto `out.ads`. -/
structure AdRecord where
  type : Option String
  campaign : Option String
  adGroup : Option String
  status : Option String
  topics : List String
  reasons : List String
  deriving Repr, DecidableEq

/-- The record pushed onto `out.keywords`. -/
structure KwRecord where
  text : String
  matchType : Option String
  campaign : Option String
  adGroup : Option String
  status : Option String
  topics : List String
  reasons : List String
  deriving Repr, DecidableEq

/-- The record pushed onto `out.assets`. -/
structure AssetRecord where
  assetType : Option String
  name : Option String
  status : Option String
  topics : List String
  reasons : List String
  deriving Repr, DecidableEq

/-- Models `out.totals` of one worker result. -/
structure Totals where
  ads : Nat
  keywords : Nat
  assets : Nat
  deriving Repr, DecidableEq

/-- The serialized `out` object returned by `getStats`. -/
structure AccountScanResult where
  account : String
  ads : List AdRecord
  keywords : List KwRecord
  assets : List AssetRecord
  totals : Totals
  deriving Repr, DecidableEq

/-- The items one category iterator yields inside the worker, in order,
already capped by `withLimit(CONFIG.MAX_ROWS_PER_SECTION)`.  `throws = true`
models an execution whose fetch/filter loop throws after processing
`items` (iterator failure, or an unguarded accessor such as
`ad.getCampaign()` throwing on the next item): the category's `catch`
fires, so the statement `out.totals.x = out.x.length` that follows the
loop never runs. -/
structure CategoryFetch (α : Type) where
  items : List α
  throws : Bool
  deriving Repr, DecidableEq

/-- Everything the platform hands one invocation of `getStats`. -/
structure AccountInput where
  accountName : String
  customerId : String
  ads : CategoryFetch AdInput
  keywords : CategoryFetch KwInput
  assets : CategoryFetch AssetInput
  deriving Repr, DecidableEq

/-- The ad filter: `if (String(polStatus) === 'APPROVED') continue;` — a
`null` status stringifies to `"null"` and is therefore kept. -/
def adKept (st : Option String) : Bool :=
  jsStringOfNullable st != "APPROVED"

/-- The keyword filter: `if (String(kwStatus) === 'APPROVED') continue;`. -/
def kwKept (st : Option String) : Bool :=
  jsStringOfNullable st != "APPROVED"

/-- The asset filter: `if (!aStatus || String(aStatus) === 'APPROVED') continue;`
— a falsy (absent or empty) status is skipped outright. -/
def assetKept (st : Option String) : Bool :=
  !(!(truthyOpt st) || jsStringOfNullable st == "APPROVED")

/-- The record assembled for one surviving ad. -/
def mkAdRecord (a : AdInput) : AdRecord :=
  let pol := extractPolicyInfo_ a.policyTopics
  { type := a.type, campaign := a.campaign, adGroup := a.adGroup,
    status := a.policyStatus, topics := pol.topics, reasons := pol.reasons }

/-- The record assembled for one surviving keyword. -/
def mkKwRecord (k : KwInput) : KwRecord :=
  let pol := extractPolicyInfo_ k.policyTopics
  { text := k.text, matchType := k.matchType, campaign := k.campaign,
    adGroup := k.adGroup, status := k.status,
    topics := pol.topics, reasons := pol.reasons }

/-- The record assembled for one surviving asset. -/
def mkAssetRecord (x : AssetInput) : AssetRecord :=
  let pol := extractPolicyInfo_ x.policyTopics
  { assetType := x.assetType, name := x.name, status := x.status,
    topics := pol.topics, reasons := pol.reasons }

/-- One category's `while (iter.hasNext())` loop: check the status filter,
extract policy info, push the record. -/
def scanLoop {α β : Type} (keep : α → Bool) (mk : α → β) : List α → List β
  | [] => []
  | a :: rest => if keep a then mk a :: scanLoop keep mk rest else scanLoop keep mk rest

/-- A category's total: `out.totals.x = out.x.length` runs only when the
loop finished without throwing; otherwise the field keeps its initial 0. -/
def categoryTotal {β : Type} (pushed : List β) (throws : Bool) : Nat :=
  if throws then 0 else pushed.length

/-- Models `getStats()`: scan ads, keywords and assets of the current account
independently (each in its own `try`), filter in code, and return the
serialized `AccountScanResult`. -/
def getStats (inp : AccountInput) : AccountScanResult :=
  let adsList := scanLoop (fun a => adKept a.policyStatus) mkAdRecord inp.ads.items
  let kwList := scanLoop (fun k => kwKept k.status) mkKwRecord inp.keywords.items
  let assetList := scanLoop (fun x => assetKept x.status) mkAssetRecord inp.assets.items
  { account := inp.accountName ++ " (" ++ inp.customerId ++ ")",
    ads := adsList, keywords := kwList, assets := assetList,
    totals := { ads := categoryTotal adsList inp.ads.throws,
                keywords := categoryTotal kwList inp.keywords.throws,
                assets := categoryTotal assetList inp.assets.throws } }

/-!  ## Configuration  -/

/-- One entry of `CONFIG.LABEL_RECIPIENTS`; `none` fields model absent
keys. -/
structure LabelGroup where
  label : Option String
  toAddr : Option String
  cc : Option String
  deriving Repr, DecidableEq

/-- The `CONFIG` object; the field name `SUBJECT_PFX` is shortened and
models `CONFIG.SUBJECT_PREFIX`. -/
structure Config where
  DEFAULT_TO : String
  FROM_NAME : String
  SUBJECT_PFX : String
  LABEL_RECIPIENTS : List LabelGroup
  MAX_ROWS_PER_SECTION : Nat
  INCLUDE_ZERO_ROW_SECTIONS : Bool
  LOG_SUMMARY : Bool
  deriving Repr, DecidableEq

/-- The `CONFIG` literal of the source file. -/
def CONFIG : Config :=
  { DEFAULT_TO := "reports@example.com",
    FROM_NAME := "Disapproval Monitor",
    SUBJECT_PFX := "⚠ Disapprovals",
    LABEL_RECIPIENTS := [{ label := some "Managed by Sam",
                           toAddr := some "sam@example.com", cc := some "" }],
    MAX_ROWS_PER_SECTION := 5000,
    INCLUDE_ZERO_ROW_SECTIONS := true,
    LOG_SUMMARY := true }

/-!  ## Aggregator (`generateOutput`)  -/

/-- The deserialized context object `JSON.parse(contextStr || '\x7b\x7d')`;
a context string that fails to parse yields the empty object, i.e. all
fields `none`.  (`JSON.parse` is deterministic, so quantifying over the
parsed object covers quantifying over the context string.) -/
structure CtxIn where
  label : Option String
  toAddr : Option String
  cc : Option String
  deriving Repr, DecidableEq

/-- The payload obtained by `parseSafe_` from one worker's return value.
A genuine worker returns `JSON.stringify` of an `AccountScanResult`, but
the aggregator reads every member defensively, so each is optional. -/
structure Payload where
  account : Option String
  ads : Option (List AdRecord)
  keywords : Option (List KwRecord)
  assets : Option (List AssetRecord)
  totals : Option Totals
  deriving Repr, DecidableEq

/-- The JSON round trip a successful worker's return value takes across
the `executeInParallel` boundary. -/
def payloadOfScan (r : AccountScanResult) : Payload :=
  { account := some r.account, ads := some r.ads, keywords := some r.keywords,
    assets := some r.assets, totals := some r.totals }

/-- One element of the `results` array handed to the aggregator:
`noReturn` models `!res.getReturnValue` (the account's scan failed
outright), `unparseable` a return value on which `parseSafe_` yields
`null`, and `ok` a parsed payload. -/
inductive WorkerOutcome where
  | noReturn
  | unparseable
  | ok (p : Payload)
  deriving Repr, DecidableEq

/-- The two `continue` guards of the merge loop, as a partial projection. -/
def parsedOf : WorkerOutcome → Option Payload
  | .noReturn => none
  | .unparseable => none
  | .ok p => some p

/-- Models `(payload.totals && payload.totals.ads) || 0`. -/
def adsOfPayload (p : Payload) : Nat :=
  match p.totals with
  | some t => t.ads
  | none => 0

/-- Models `(payload.totals && payload.totals.keywords) || 0`. -/
def keywordsOfPayload (p : Payload) : Nat :=
  match p.totals with
  | some t => t.keywords
  | none => 0

/-- Models `(payload.totals && payload.totals.assets) || 0`. -/
def assetsOfPayload (p : Payload) : Nat :=
  match p.totals with
  | some t => t.assets
  | none => 0

/-- One row pushed onto `merged.rows`. -/
structure Row where
  account : Option String
  ads : List AdRecord
  keywords : List KwRecord
  assets : List AssetRecord
  deriving Repr, DecidableEq

/-- Models `merged.totals`. -/
structure MTotals where
  ads : Nat
  keywords : Nat
  assets : Nat
  accounts : Nat
  deriving Repr, DecidableEq

/-- The `merged` accumulator. -/
structure Merged where
  label : String
  rows : List Row
  totals : MTotals
  deriving Repr, DecidableEq

/-- The row `merged.rows.push(…)` builds from one payload
(`payload.ads || []` and friends). -/
def rowOfPayload (payload : Payload) : Row :=
  { account := payload.account,
    ads := payload.ads.getD [],
    keywords := payload.keywords.getD [],
    assets := payload.assets.getD [] }

/-- One iteration of the merge loop: skip results without a parseable
return value, otherwise bump the totals and push a row. -/
def mergeStep (m : Merged) (res : WorkerOutcome) : Merged :=
  match parsedOf res with
  | none => m
  | some payload =>
      { m with
        totals := { accounts := m.totals.accounts + 1,
                    ads := m.totals.ads + adsOfPayload payload,
                    keywords := m.totals.keywords + keywordsOfPayload payload,
                    assets := m.totals.assets + assetsOfPayload payload },
        rows := m.rows ++ [rowOfPayload payload] }

/-- The merge loop of `generateOutput`. -/
def mergeResults (results : List WorkerOutcome) (labelName : String) : Merged :=
  results.foldl mergeStep
    { label := labelName, rows := [],
      totals := { ads := 0, keywords := 0, assets := 0, accounts := 0 } }

/-- Models `(ctx && ctx.to) ? String(ctx.to).trim() : (CONFIG.DEFAULT_TO || '')`. -/
def recipientOfCtx (cfg : Config) (ctx : CtxIn) : String :=
  if truthyOpt ctx.toAddr then jsTrim (ctx.toAddr.getD "") else cfg.DEFAULT_TO

/-- Models `(ctx && ctx.cc) ? String(ctx.cc).trim() : ''`. -/
def ccOfCtx (ctx : CtxIn) : String :=
  if truthyOpt ctx.cc then jsTrim (ctx.cc.getD "") else ""

/-- Models `(ctx && ctx.label) ? ctx.label : '(Unlabeled Group)'`. -/
def labelNameOf (ctx : CtxIn) : String :=
  if truthyOpt ctx.label then ctx.label.getD "" else "(Unlabeled Group)"

/-- Models `buildSubject_(labelName, total, totals)`. -/
def buildSubject_ (cfg : Config) (labelName : String) (total : Nat)
    (totals : MTotals) : String :=
  let statusFlag := if total > 0 then "FOUND" else "NONE"
  (if cfg.SUBJECT_PFX = "" then "Disapprovals" else cfg.SUBJECT_PFX) ++ " — " ++
    labelName ++ " — " ++ statusFlag ++
    " (Ads:" ++ toString totals.ads ++ ", KW:" ++ toString totals.keywords ++
    ", Assets:" ++ toString totals.assets ++ ")"

/-- Models `sectionHeader_(title, count)`. -/
def sectionHeader_ (title : String) (count : Nat) : String :=
  "<h4 style=\"margin:12px 0 6px 0;\">" ++ escHtml_ (some title) ++
    " <span style=\"font-weight:normal;color:#555\">(" ++ toString count ++ ")</span></h4>"

/-- Models `emptyNote_()`. -/
def emptyNote_ : String :=
  "<div style=\"padding:8px 10px;border:1px dashed #ddd;background:#fafafa;color:#777;\">None</div>"

/-- The `<table …>` opening shared by the three category tables. -/
def tableOpen : String :=
  "<table width=\"100%\" cellpadding=\"6\" cellspacing=\"0\" style=\"border-collapse:collapse;border:1px solid #ddd;\">"

/-- One `<tr>` of the Ads table. -/
def adRowHtml (ad : AdRecord) : String :=
  "<tr style=\"border-top:1px solid #eee;\">" ++
    td_ ad.type ++ td_ ad.campaign ++ td_ ad.adGroup ++ td_ ad.status ++
    td_ (some (String.intercalate ", " ad.topics)) ++
    td_ (some (String.intercalate "; " ad.reasons)) ++ "</tr>"

/-- One `<tr>` of the Keywords table. -/
def kwRowHtml (kw : KwRecord) : String :=
  "<tr style=\"border-top:1px solid #eee;\">" ++
    td_ (some kw.text) ++ td_ kw.matchType ++ td_ kw.campaign ++ td_ kw.adGroup ++
    td_ kw.status ++ td_ (some (String.intercalate ", " kw.topics)) ++
    td_ (some (String.intercalate "; " kw.reasons)) ++ "</tr>"

/-- One `<tr>` of the Assets table. -/
def assetRowHtml (a : AssetRecord) : String :=
  "<tr style=\"border-top:1px solid #eee;\">" ++
    td_ a.assetType ++ td_ a.name ++ td_ a.status ++
    td_ (some (String.intercalate ", " a.topics)) ++
    td_ (some (String.intercalate "; " a.reasons)) ++ "</tr>"

/-- The Ads sub-section of one account's block. -/
def adsSection (cfg : Config) (ads : List AdRecord) : String :=
  if ads.length > 0 || cfg.INCLUDE_ZERO_ROW_SECTIONS then
    sectionHeader_ "Ads" ads.length ++
      (if ads.length > 0 then
        tableOpen ++
          "<thead><tr style=\"background:#f7f7f7\"><th align=\"left\">Type</th><th align=\"left\">Campaign</th><th align=\"left\">Ad group</th><th align=\"left\">Status</th><th align=\"left\">Policy topics</th><th align=\"left\">Reasons</th></tr></thead>" ++
          "<tbody>" ++ String.join (ads.map adRowHtml) ++ "</tbody></table>"
      else emptyNote_)
  else ""

/-- The Keywords sub-section of one account's block. -/
def kwSection (cfg : Config) (kws : List KwRecord) : String :=
  if kws.length > 0 || cfg.INCLUDE_ZERO_ROW_SECTIONS then
    sectionHeader_ "Keywords" kws.length ++
      (if kws.length > 0 then
        tableOpen ++
          "<thead><tr style=\"background:#f7f7f7\"><th align=\"left\">Text</th><th align=\"left\">Match</th><th align=\"left\">Campaign</th><th align=\"left\">Ad group</th><th align=\"left\">Status</th><th align=\"left\">Policy topics</th><th align=\"left\">Reasons</th></tr></thead>" ++
          "<tbody>" ++ String.join (kws.map kwRowHtml) ++ "</tbody></table>"
      else emptyNote_)
  else ""

/-- The Assets sub-section of one account's block. -/
def assetSection (cfg : Config) (assets : List AssetRecord) : String :=
  if assets.length > 0 || cfg.INCLUDE_ZERO_ROW_SECTIONS then
    sectionHeader_ "Assets / Extensions (best-effort)" assets.length ++
      (if assets.length > 0 then
        tableOpen ++
          "<thead><tr style=\"background:#f7f7f7\"><th align=\"left\">Type</th><th align=\"left\">Name</th><th align=\"left\">Status</th><th align=\"left\">Policy topics</th><th align=\"left\">Reasons</th></tr></thead>" ++
          "<tbody>" ++ String.join (assets.map assetRowHtml) ++ "</tbody></table>"
      else emptyNote_)
  else ""

/-- One account's block of the report body. -/
def rowHtml (cfg : Config) (row : Row) : String :=
  "<h3 style=\"margin:16px 0 6px 0;\">" ++ escHtml_ row.account ++ "</h3>" ++
    adsSection cfg row.ads ++ kwSection cfg row.keywords ++ assetSection cfg row.assets

/-- Everything pushed onto `html` before the trailing timestamp line. -/
def bodyCore (cfg : Config) (merged : Merged) (labelName : String) : String :=
  "<div style=\"font-family:Arial,Helvetica,sans-serif;font-size:13px;color:#222;\">" ++
    "<h2 style=\"margin:0 0 8px 0;\">" ++ escHtml_ (some cfg.SUBJECT_PFX) ++ " — " ++
      escHtml_ (some labelName) ++ "</h2>" ++
    "<p style=\"margin:4px 0 12px 0;\">" ++
      "Accounts scanned: <b>" ++ toString merged.totals.accounts ++ "</b> | " ++
      "Ads: <b>" ++ toString merged.totals.ads ++ "</b> | " ++
      "Keywords: <b>" ++ toString merged.totals.keywords ++ "</b> | " ++
      "Assets: <b>" ++ toString merged.totals.assets ++ "</b>" ++ "</p>" ++
    (if merged.rows.length = 0 then
      "<p>No accounts matched the label \"<b>" ++ escHtml_ (some labelName) ++ "</b>\".</p>"
    else
      String.join (merged.rows.map (rowHtml cfg)))

/-- The trailing `Sent …` paragraph; `nowStr` is the run's
`new Date().toLocaleString()` reading. -/
def datePara (nowStr : String) (preview : Bool) : String :=
  "<p style=\"margin-top:18px;color:#666;font-size:12px;\">Sent " ++ nowStr ++
    (if preview then " (PREVIEW MODE – no changes applied)" else "") ++ "</p>"

/-- Models `html.join('')` — the complete HTML body of one report. -/
def buildHtml (cfg : Config) (merged : Merged) (labelName : String)
    (nowStr : String) (preview : Bool) : String :=
  bodyCore cfg merged labelName ++ datePara nowStr preview ++ "</div>"

/-- The HTML body `generateOutput` assembles from the worker results and
the deserialized context. -/
def generateHtml (cfg : Config) (results : List WorkerOutcome) (ctx : CtxIn)
    (nowStr : String) (preview : Bool) : String :=
  buildHtml cfg (mergeResults results (labelNameOf ctx)) (labelNameOf ctx) nowStr preview

/-- The outgoing message assembled by one aggregator run; `sent` records
whether `MailApp.sendEmail` fires (it is suppressed in preview mode). -/
structure MailOut where
  recipient : String
  cc : String
  subject : String
  htmlBody : String
  merged : Merged
  sent : Bool
  deriving Repr, DecidableEq

/-- Models `generateOutput(results, contextStr)`: resolve the recipient (throwing
when it is empty), merge the worker results, build the HTML body and the
subject, and emit the message. -/
def generateOutput (cfg : Config) (results : List WorkerOutcome) (ctx : CtxIn)
    (nowStr : String) (preview : Bool) : Except String MailOut :=
  let recipient := recipientOfCtx cfg ctx
  if recipient = "" then
    .error "Failed to send email: no recipient"
  else
    let labelName := labelNameOf ctx
    let merged := mergeResults results labelName
    let totalIssues := merged.totals.ads + merged.totals.keywords + merged.totals.assets
    .ok { recipient := recipient,
          cc := ccOfCtx ctx,
          subject := buildSubject_ cfg labelName totalIssues merged.totals,
          htmlBody := generateHtml cfg results ctx nowStr preview,
          merged := merged,
          sent := !preview }

/-!  ## Group pipeline (`processGroup`, `main`)  -/

/-- Models `(group && group.to) ? String(group.to).trim() : (CONFIG.DEFAULT_TO || '')`. -/
def resolveGroupRecipient (cfg : Config) (g : LabelGroup) : String :=
  if truthyOpt g.toAddr then jsTrim (g.toAddr.getD "") else cfg.DEFAULT_TO

/-- Models `group.label || '(Unnamed Label)'`. -/
def labelOfGroup (g : LabelGroup) : String :=
  if truthyOpt g.label then g.label.getD "" else "(Unnamed Label)"

/-- Models `(group && group.cc) ? String(group.cc).trim() : ''`. -/
def ccOfGroup (g : LabelGroup) : String :=
  if truthyOpt g.cc then jsTrim (g.cc.getD "") else ""

/-- The context object `processGroup` serializes for the fan-out. -/
structure CtxData where
  label : String
  toAddr : String
  cc : String
  deriving Repr, DecidableEq

/-- What one `processGroup` call does: `skipped` is the
`Logger.log('Skipping label …'); return;` path (no fan-out, hence no
aggregator run and no email for this group); `dispatched` is the
`acctSelector.executeInParallel('getStats', 'generateOutput', ctx)` call
for the accounts labelled `label`, with the serialized context. -/
inductive GroupAction where
  | skipped (label : Option String)
  | dispatched (label : String) (ctx : CtxData)
  deriving Repr, DecidableEq

/-- Models `processGroup(group)`. -/
def processGroup (cfg : Config) (g : LabelGroup) : GroupAction :=
  let recipient := resolveGroupRecipient cfg g
  if recipient = "" then
    .skipped g.label
  else
    let label := labelOfGroup g
    .dispatched label { label := label, toAddr := recipient, cc := ccOfGroup g }

/-- Models `main()`: fail fast when `CONFIG.LABEL_RECIPIENTS` is empty, otherwise
run `processGroup` on every configured group in order. -/
def mainRun (cfg : Config) : Except String (List GroupAction) :=
  if cfg.LABEL_RECIPIENTS.length = 0 then
    .error "CONFIG.LABEL_RECIPIENTS is empty — add at least one entry."
  else
    .ok (cfg.LABEL_RECIPIENTS.map (processGroup cfg))

/-!  ## Concrete sample inputs used by counterexamples and witnesses  -/

/-- A policy topic with a name and one evidence text. -/
def sampleTopic : RawTopic :=
  { getTopic := some "Trademarks", getId := none, topicField := none,
    idField := none, evidences := [some "Uses a protected trademark"] }

/-- An ad whose `getPolicyApprovalStatus` call failed (`safeCall_` yields
`null`). -/
def adNoStatus : AdInput :=
  { policyStatus := none, type := some "EXPANDED_TEXT_AD",
    campaign := some "Campaign A", adGroup := some "Group A", policyTopics := none }

/-- A disapproved ad. -/
def adDisapproved : AdInput :=
  { policyStatus := some "DISAPPROVED", type := some "RESPONSIVE_SEARCH_AD",
    campaign := some "Campaign A", adGroup := some "Group A",
    policyTopics := some [sampleTopic] }

/-- A disapproved keyword. -/
def kwDisapproved : KwInput :=
  { status := some "DISAPPROVED", text := "cheap widgets", matchType := some "BROAD",
    campaign := some "Campaign B", adGroup := some "Group B",
    policyTopics := some [sampleTopic] }

/-- An asset whose `getPolicyApprovalStatus` read yielded `null`. -/
def assetNoStatus : AssetInput :=
  { status := none, assetType := some "IMAGE", name := some "banner.png",
    policyTopics := none }

/-- An account whose ad and asset both lack a status reading. -/
def inpNullStatuses : AccountInput :=
  { accountName := "Acme", customerId := "123-456-7890",
    ads := { items := [adNoStatus], throws := false },
    keywords := { items := [], throws := false },
    assets := { items := [assetNoStatus], throws := false } }

/-- An account with one disapproved keyword and one status-less asset. -/
def inpKwOnly : AccountInput :=
  { accountName := "Beta", customerId := "234-567-8901",
    ads := { items := [], throws := false },
    keywords := { items := [kwDisapproved], throws := false },
    assets := { items := [assetNoStatus], throws := false } }

/-- An account whose ads loop throws after pushing one disapproved ad. -/
def inpAdsThrow : AccountInput :=
  { accountName := "Gamma", customerId := "345-678-9012",
    ads := { items := [adDisapproved], throws := true },
    keywords := { items := [], throws := false },
    assets := { items := [], throws := false } }

/-- The empty context object (`JSON.parse` failed or produced `\x7b\x7d`). -/
def emptyCtx : CtxIn := { label := none, toAddr := none, cc := none }

/-- A label group with no `to` address. -/
def gNoTo : LabelGroup := { label := some "Orphans", toAddr := none, cc := none }

/-- The label group of the source `CONFIG`. -/
def gSam : LabelGroup :=
  { label := some "Managed by Sam", toAddr := some "sam@example.com", cc := some "" }

/-- The source configuration with the fallback recipient removed and two
groups configured. -/
def cfgNoDefault : Config :=
  { CONFIG with DEFAULT_TO := "", LABEL_RECIPIENTS := [gNoTo, gSam] }


/-!  ## Helper lemmas  -/

theorem scanLoop_eq {α β : Type} (keep : α → Bool) (mk : α → β) (l : List α) :
    scanLoop keep mk l = (l.filter keep).map mk := by
  induction l with
  | nil => rfl
  | cons a rest ih =>
      by_cases h : keep a <;> simp [scanLoop, List.filter_cons, h, ih]

theorem adKept_iff (st : Option String) : adKept st = true ↔ st ≠ some "APPROVED" := by
  cases st with
  | none => decide
  | some s => simp [adKept, jsStringOfNullable]

theorem kwKept_iff (st : Option String) : kwKept st = true ↔ st ≠ some "APPROVED" := by
  cases st with
  | none => decide
  | some s => simp [kwKept, jsStringOfNullable]

theorem assetKept_iff (st : Option String) :
    assetKept st = true ↔ ∃ s, st = some s ∧ s ≠ "" ∧ s ≠ "APPROVED" := by
  cases st with
  | none => decide
  | some s => simp [assetKept, truthyOpt, jsStringOfNullable, and_assoc]

theorem getStats_ads (inp : AccountInput) :
    (getStats inp).ads
      = (inp.ads.items.filter (fun a => adKept a.policyStatus)).map mkAdRecord := by
  simp [getStats, scanLoop_eq]

theorem getStats_keywords (inp : AccountInput) :
    (getStats inp).keywords
      = (inp.keywords.items.filter (fun k => kwKept k.status)).map mkKwRecord := by
  simp [getStats, scanLoop_eq]

theorem getStats_assets (inp : AccountInput) :
    (getStats inp).assets
      = (inp.assets.items.filter (fun x => assetKept x.status)).map mkAssetRecord := by
  simp [getStats, scanLoop_eq]

theorem mem_getStats_ads_iff (inp : AccountInput) (a : AdInput)
    (ha : a ∈ inp.ads.items) :
    mkAdRecord a ∈ (getStats inp).ads ↔ a.policyStatus ≠ some "APPROVED" := by
  rw [getStats_ads]
  constructor
  · intro hmem
    rcases List.mem_map.mp hmem with ⟨a2, ha2, heq⟩
    rcases List.mem_filter.mp ha2 with ⟨_, hkeep⟩
    have hst : a2.policyStatus = a.policyStatus := congrArg AdRecord.status heq
    have h2 := (adKept_iff a2.policyStatus).mp hkeep
    rwa [hst] at h2
  · intro hne
    exact List.mem_map_of_mem _ (List.mem_filter.mpr ⟨ha, (adKept_iff _).mpr hne⟩)

theorem mem_getStats_keywords_iff (inp : AccountInput) (k : KwInput)
    (hk : k ∈ inp.keywords.items) :
    mkKwRecord k ∈ (getStats inp).keywords ↔ k.status ≠ some "APPROVED" := by
  rw [getStats_keywords]
  constructor
  · intro hmem
    rcases List.mem_map.mp hmem with ⟨k2, hk2, heq⟩
    rcases List.mem_filter.mp hk2 with ⟨_, hkeep⟩
    have hst : k2.status = k.status := congrArg KwRecord.status heq
    have h2 := (kwKept_iff k2.status).mp hkeep
    rwa [hst] at h2
  · intro hne
    exact List.mem_map_of_mem _ (List.mem_filter.mpr ⟨hk, (kwKept_iff _).mpr hne⟩)

theorem mem_getStats_assets_iff (inp : AccountInput) (x : AssetInput)
    (hx : x ∈ inp.assets.items) :
    mkAssetRecord x ∈ (getStats inp).assets
      ↔ ∃ s, x.status = some s ∧ s ≠ "" ∧ s ≠ "APPROVED" := by
  rw [getStats_assets]
  constructor
  · intro hmem
    rcases List.mem_map.mp hmem with ⟨x2, hx2, heq⟩
    rcases List.mem_filter.mp hx2 with ⟨_, hkeep⟩
    have hst : x2.status = x.status := congrArg AssetRecord.status heq
    have h2 := (assetKept_iff x2.status).mp hkeep
    rwa [hst] at h2
  · intro hne
    exact List.mem_map_of_mem _ (List.mem_filter.mpr ⟨hx, (assetKept_iff _).mpr hne⟩)

theorem adKept_eq_decide (st : Option String) :
    adKept st = decide (st ≠ some "APPROVED") := by
  cases st with
  | none => decide
  | some s =>
      by_cases h : s = "APPROVED" <;> simp [adKept, jsStringOfNullable, bne, h]

theorem kwKept_eq_decide (st : Option String) :
    kwKept st = decide (st ≠ some "APPROVED") := by
  cases st with
  | none => decide
  | some s =>
      by_cases h : s = "APPROVED" <;> simp [kwKept, jsStringOfNullable, bne, h]

/-!  ## Claim theorems  -/

/-- Claim C1 (counterexample).  The claim states that an entity appears in
the disapproved lists iff its status is present and non-approved, that an
asset with an absent status is still disapproved-eligible, and that an ad
whose status call fails is skipped.  The code does the opposite on both
sides of the asymmetry: an ad whose `getPolicyApprovalStatus` call failed
(status `null`) IS pushed (`String(null) === 'APPROVED'` is false), while
an asset with a `null` status is skipped by `if (!aStatus …) continue`.
Concretely, scanning `inpNullStatuses` lists the status-less ad and drops
the status-less asset. -/
theorem c1_status_filter_cex :
    adNoStatus.policyStatus = none ∧
    assetNoStatus.status = none ∧
    (getStats inpNullStatuses).ads = [mkAdRecord adNoStatus] ∧
    (getStats inpNullStatuses).assets = [] ∧
    decide (mkAdRecord adNoStatus ∈ (getStats inpNullStatuses).ads) = true ∧
    decide (mkAssetRecord assetNoStatus ∈ (getStats inpNullStatuses).assets) = false := by
  decide

/-- Claim C1 (amended).  For every scanned entity: an ad or keyword appears
in the disapproved lists iff its platform-reported status is not exactly
`"APPROVED"` (an absent / failed status is therefore listed); an asset
appears iff its status is present, non-empty and not exactly `"APPROVED"`
(an asset with an absent status is skipped).  The comparison is the
case-sensitive exact match `String(status) === 'APPROVED'` against the
platform's enum spelling, which the source writes in upper case. -/
theorem c1_status_filter_amended (inp : AccountInput) :
    (∀ a ∈ inp.ads.items,
      (mkAdRecord a ∈ (getStats inp).ads ↔ a.policyStatus ≠ some "APPROVED")) ∧
    (∀ k ∈ inp.keywords.items,
      (mkKwRecord k ∈ (getStats inp).keywords ↔ k.status ≠ some "APPROVED")) ∧
    (∀ x ∈ inp.assets.items,
      (mkAssetRecord x ∈ (getStats inp).assets
        ↔ ∃ s, x.status = some s ∧ s ≠ "" ∧ s ≠ "APPROVED")) := by
  exact ⟨fun a ha => mem_getStats_ads_iff inp a ha,
         fun k hk => mem_getStats_keywords_iff inp k hk,
         fun x hx => mem_getStats_assets_iff inp x hx⟩

/-- Witness for `c1_status_filter_amended` at `inpNullStatuses`: the
status-less ad is listed, the disapproved-statused asset test follows by
the iff. -/
theorem c1_status_filter_amended_witness :
    mkAdRecord adNoStatus ∈ (getStats inpNullStatuses).ads := by
  have h := (c1_status_filter_amended inpNullStatuses).1 adNoStatus (by decide)
  exact h.mpr (by decide)

/-- Claim C2 (confirmed).  Every scanned ad or keyword whose status read
failed (`null`) or whose status differs from the platform's approved enum
string appears in its category list, and the category list has exactly one
entry per such scanned item (no duplication, no loss); every scanned asset
with a `null`/absent status is skipped entirely.  (The spec writes the
approved status in lower case while stipulating a case-sensitive match on
the platform's enum string, which the source spells `'APPROVED'`.) -/
theorem c2_exactly_once (inp : AccountInput) :
    ((getStats inp).ads.length
        = (inp.ads.items.filter (fun a => decide (a.policyStatus ≠ some "APPROVED"))).length
      ∧ ∀ a ∈ inp.ads.items, a.policyStatus ≠ some "APPROVED" →
          mkAdRecord a ∈ (getStats inp).ads) ∧
    ((getStats inp).keywords.length
        = (inp.keywords.items.filter (fun k => decide (k.status ≠ some "APPROVED"))).length
      ∧ ∀ k ∈ inp.keywords.items, k.status ≠ some "APPROVED" →
          mkKwRecord k ∈ (getStats inp).keywords) ∧
    (∀ x ∈ inp.assets.items, x.status = none →
        decide (mkAssetRecord x ∈ (getStats inp).assets) = false) := by
  refine ⟨⟨?_, ?_⟩, ⟨?_, ?_⟩, ?_⟩
  · rw [getStats_ads, List.length_map]
    congr 1
    apply List.filter_congr
    intro a _
    rw [adKept_eq_decide]
  · intro a ha hne
    exact (mem_getStats_ads_iff inp a ha).mpr hne
  · rw [getStats_keywords, List.length_map]
    congr 1
    apply List.filter_congr
    intro k _
    rw [kwKept_eq_decide]
  · intro k hk hne
    exact (mem_getStats_keywords_iff inp k hk).mpr hne
  · intro x hx hnone
    apply decide_eq_false
    intro hmem
    rcases (mem_getStats_assets_iff inp x hx).mp hmem with ⟨s, hs, _, _⟩
    rw [hnone] at hs
    exact Option.noConfusion hs

/-- Witness for `c2_exactly_once` at `inpKwOnly`: the disapproved keyword
is listed and the status-less asset is absent. -/
theorem c2_exactly_once_witness :
    mkKwRecord kwDisapproved ∈ (getStats inpKwOnly).keywords ∧
    decide (mkAssetRecord assetNoStatus ∈ (getStats inpKwOnly).assets) = false := by
  have h := c2_exactly_once inpKwOnly
  exact ⟨h.2.1.2 kwDisapproved (by decide) (by decide),
         h.2.2 assetNoStatus (by decide) (by decide)⟩

/-- Claim C3 (counterexample).  `out.totals.ads = out.ads.length` is the last
statement inside the ads `try` block, so when the fetch/filter loop throws
after pushing a record the assignment never runs: the returned result keeps
the partially-filled list but a zero total.  Scanning `inpAdsThrow` (one
disapproved ad pushed, then the loop throws) yields `ads.length = 1` with
`totals.ads = 0`. -/
theorem c3_totals_cex :
    (getStats inpAdsThrow).ads.length = 1 ∧
    (getStats inpAdsThrow).totals.ads = 0 ∧
    decide ((getStats inpAdsThrow).totals.ads = (getStats inpAdsThrow).ads.length) = false := by
  decide

/-- Claim C3 (amended).  In every `getStats` result, each category total
equals the length of the category's list whenever that category's
fetch/filter loop completed without throwing; a category whose loop threw
partway keeps its already-pushed records in the list while the total stays
at its initial 0. -/
theorem c3_totals_amended (inp : AccountInput) :
    ((getStats inp).totals.ads
        = if inp.ads.throws then 0 else (getStats inp).ads.length) ∧
    ((getStats inp).totals.keywords
        = if inp.keywords.throws then 0 else (getStats inp).keywords.length) ∧
    ((getStats inp).totals.assets
        = if inp.assets.throws then 0 else (getStats inp).assets.length) :=
  ⟨rfl, rfl, rfl⟩

/-!  ## Merge-fold lemmas  -/

theorem mergeFold_spec (results : List WorkerOutcome) (init : Merged) :
    (results.foldl mergeStep init).totals.ads
        = init.totals.ads + ((results.filterMap parsedOf).map adsOfPayload).sum ∧
    (results.foldl mergeStep init).totals.keywords
        = init.totals.keywords + ((results.filterMap parsedOf).map keywordsOfPayload).sum ∧
    (results.foldl mergeStep init).totals.assets
        = init.totals.assets + ((results.filterMap parsedOf).map assetsOfPayload).sum ∧
    (results.foldl mergeStep init).totals.accounts
        = init.totals.accounts + (results.filterMap parsedOf).length ∧
    (results.foldl mergeStep init).rows
        = init.rows ++ (results.filterMap parsedOf).map rowOfPayload := by
  induction results generalizing init with
  | nil => simp
  | cons r rest ih =>
      rcases hr : parsedOf r with _ | p
      · have hstep : mergeStep init r = init := by simp [mergeStep, hr]
        simp only [List.foldl_cons, hstep, List.filterMap_cons, hr]
        exact ih init
      · have h2 := ih (mergeStep init r)
        simp only [List.foldl_cons, List.filterMap_cons, hr, List.map_cons,
          List.sum_cons, List.length_cons]
        refine ⟨?_, ?_, ?_, ?_, ?_⟩
        · rw [h2.1]; simp [mergeStep, hr]; omega
        · rw [h2.2.1]; simp [mergeStep, hr]; omega
        · rw [h2.2.2.1]; simp [mergeStep, hr]; omega
        · rw [h2.2.2.2.1]; simp [mergeStep, hr]; omega
        · rw [h2.2.2.2.2]; simp [mergeStep, hr]

/-- Claim C4 (confirmed).  Each merged total is the sum, over exactly those
worker results that returned a parseable value, of the per-account count
the payload carries (`(payload.totals && payload.totals.x) || 0`); results
with no return value or an unparseable one are skipped by the two
`continue` guards and contribute nothing. -/
theorem c4_merged_totals_sum (results : List WorkerOutcome) (labelName : String) :
    (mergeResults results labelName).totals.ads
        = ((results.filterMap parsedOf).map adsOfPayload).sum ∧
    (mergeResults results labelName).totals.keywords
        = ((results.filterMap parsedOf).map keywordsOfPayload).sum ∧
    (mergeResults results labelName).totals.assets
        = ((results.filterMap parsedOf).map assetsOfPayload).sum := by
  have h := mergeFold_spec results
    { label := labelName, rows := [],
      totals := { ads := 0, keywords := 0, assets := 0, accounts := 0 } }
  exact ⟨by simpa using h.1, by simpa using h.2.1, by simpa using h.2.2.1⟩

/-- Claim C10 (confirmed).  In every merged report, `totals.accounts` equals
`rows.length`: the rows are exactly one `rowOfPayload` per parseable worker
result, in order, and the account counter is incremented exactly when a row
is pushed. -/
theorem c10_accounts_eq_rows (results : List WorkerOutcome) (labelName : String) :
    (mergeResults results labelName).totals.accounts
        = (mergeResults results labelName).rows.length ∧
    (mergeResults results labelName).rows
        = (results.filterMap parsedOf).map rowOfPayload := by
  have h := mergeFold_spec results
    { label := labelName, rows := [],
      totals := { ads := 0, keywords := 0, assets := 0, accounts := 0 } }
  have hrows : (mergeResults results labelName).rows
      = (results.filterMap parsedOf).map rowOfPayload := by simpa using h.2.2.2.2
  have hacc : (mergeResults results labelName).totals.accounts
      = (results.filterMap parsedOf).length := by simpa using h.2.2.2.1
  refine ⟨?_, hrows⟩
  rw [hacc, hrows, List.length_map]

/-- Claim C5 (the dedup slip).  `normalizeReasons_` tracks seen values in the
plain object `seen = \x7b\x7d` and tests `!seen[v]`; every `Object.prototype`
member name (`"toString"`, `"valueOf"`, …) is therefore already truthy, so
such strings are dropped even on their first occurrence — the code returns
`[]` on input `["toString"]` where the specified dedup returns
`["toString"]`.  On inputs avoiding those property names the specified
behaviour (trim, drop empties, first-occurrence dedup in order) holds, as
the second and third conjuncts illustrate. -/
theorem c5_normalize_code_bug :
    normalizeReasons_ ["toString"] = [] ∧
    normalizeReasons_ ["A", "A", "B"] = ["A", "B"] ∧
    normalizeReasons_ [" A ", "", "B", "A"] = ["A", "B"] := by
  decide

/-- Claim C6 (confirmed).  The subject line the aggregator builds is
`<prefix> — <label> — <FOUND|NONE> (Ads:a, KW:k, Assets:s)` with the flag
`FOUND` exactly when the three merged totals sum to something positive
(`generateOutput` passes `totalIssues = ads + keywords + assets` as the
flag argument of `buildSubject_`). -/
theorem c6_subject_line (results : List WorkerOutcome) (ctx : CtxIn)
    (nowStr : String) (preview : Bool)
    (hrec : recipientOfCtx CONFIG ctx ≠ "") :
    (generateOutput CONFIG results ctx nowStr preview).map MailOut.subject
      = .ok ("⚠ Disapprovals" ++ " — " ++ labelNameOf ctx ++ " — "
          ++ (if (mergeResults results (labelNameOf ctx)).totals.ads
                + (mergeResults results (labelNameOf ctx)).totals.keywords
                + (mergeResults results (labelNameOf ctx)).totals.assets > 0
              then "FOUND" else "NONE")
          ++ " (Ads:" ++ toString (mergeResults results (labelNameOf ctx)).totals.ads
          ++ ", KW:" ++ toString (mergeResults results (labelNameOf ctx)).totals.keywords
          ++ ", Assets:" ++ toString (mergeResults results (labelNameOf ctx)).totals.assets
          ++ ")") := by
  simp only [generateOutput]
  rw [if_neg hrec]
  simp [Except.map, buildSubject_, CONFIG]

/-- Witness for `c6_subject_line`: a run over no worker results with an
empty context object produces the `NONE` subject for the fallback label. -/
theorem c6_subject_line_witness :
    (generateOutput CONFIG [] emptyCtx "1/1/2025, 9:00:00 AM" false).map MailOut.subject
      = .ok "⚠ Disapprovals — (Unlabeled Group) — NONE (Ads:0, KW:0, Assets:0)" := by
  have h := c6_subject_line [] emptyCtx "1/1/2025, 9:00:00 AM" false (by decide)
  rw [h]
  exact congrArg Except.ok (by decide)

set_option maxRecDepth 8000 in
/-- Claim C7 (counterexample).  The HTML body embeds the run's
`new Date().toLocaleString()` reading in its trailing `Sent …` line, so two
aggregation runs over the same worker results and context string made at
different clock readings produce different bytes. -/
theorem c7_idempotence_cex :
    decide (generateHtml CONFIG [] emptyCtx "1/1/2025, 9:00:00 AM" false
        = generateHtml CONFIG [] emptyCtx "1/1/2025, 9:00:01 AM" false) = false := by
  decide

/-- Claim C7 (amended).  Two aggregation runs over the same worker results
and context produce HTML bodies that are byte-identical except for the run
timestamp spliced into the trailing `Sent …` line: the body factors as
`pre ++ timestamp ++ post` with `pre` and `post` independent of the clock
(so equal clock readings give byte-identical bodies, and nothing else in
the body varies between runs). -/
theorem c7_idempotence_amended (cfg : Config) (results : List WorkerOutcome)
    (ctx : CtxIn) (preview : Bool) (t1 t2 : String) :
    ∃ pre post,
      generateHtml cfg results ctx t1 preview = pre ++ t1 ++ post ∧
      generateHtml cfg results ctx t2 preview = pre ++ t2 ++ post := by
  refine ⟨bodyCore cfg (mergeResults results (labelNameOf ctx)) (labelNameOf ctx)
      ++ "<p style=\"margin-top:18px;color:#666;font-size:12px;\">Sent ",
    (if preview then " (PREVIEW MODE – no changes applied)" else "")
      ++ "</p>" ++ "</div>", ?_, ?_⟩ <;>
  · simp only [generateHtml, buildHtml, datePara]
    simp [String.append_assoc]

/-- Claim C8 (confirmed).  A configured group whose resolved recipient
(the group's trimmed `to` when truthy, else `CONFIG.DEFAULT_TO`) is empty
makes `processGroup` take the logged skip path and return before
`executeInParallel` — no fan-out, hence no aggregator run and no email for
that group — while `main`'s loop still processes every other configured
group in order. -/
theorem c8_skip_empty_recipient (cfg : Config) (g : LabelGroup)
    (pre suf : List LabelGroup)
    (hg : cfg.LABEL_RECIPIENTS = pre ++ g :: suf)
    (hr : resolveGroupRecipient cfg g = "") :
    processGroup cfg g = .skipped g.label ∧
    mainRun cfg = .ok (pre.map (processGroup cfg)
        ++ GroupAction.skipped g.label :: suf.map (processGroup cfg)) := by
  have hp : processGroup cfg g = .skipped g.label := by
    simp [processGroup, hr]
  have hlen : ¬ cfg.LABEL_RECIPIENTS.length = 0 := by
    rw [hg]; simp
  refine ⟨hp, ?_⟩
  simp [mainRun, hlen, hg, List.map_append, hp]

/-- Witness for `c8_skip_empty_recipient`: with no default recipient, the
`to`-less group `gNoTo` is skipped and the following group `gSam` is still
dispatched. -/
theorem c8_skip_empty_recipient_witness :
    processGroup cfgNoDefault gNoTo = .skipped (some "Orphans") ∧
    mainRun cfgNoDefault = .ok [GroupAction.skipped (some "Orphans"),
      GroupAction.dispatched "Managed by Sam"
        { label := "Managed by Sam", toAddr := "sam@example.com", cc := "" }] := by
  have h := c8_skip_empty_recipient cfgNoDefault gNoTo [] [gSam] rfl (by decide)
  refine ⟨h.1, ?_⟩
  rw [h.2]
  exact congrArg Except.ok (by decide)

theorem mem_replChar {c : Char} {rep : List Char} {l : List Char} {y : Char}
    (hy : y ∈ replChar c rep l) : y ∈ rep ∨ (y ∈ l ∧ y ≠ c) := by
  induction l with
  | nil => simp [replChar] at hy
  | cons x rest ih =>
      simp only [replChar] at hy
      rcases List.mem_append.mp hy with h1 | h2
      · by_cases hx : x = c
        · rw [if_pos hx] at h1
          exact .inl h1
        · rw [if_neg hx] at h1
          simp only [List.mem_singleton] at h1
          subst h1
          exact .inr ⟨List.mem_cons_self _ _, hx⟩
      · rcases ih h2 with h3 | ⟨h4, h5⟩
        · exact .inl h3
        · exact .inr ⟨List.mem_cons_of_mem _ h4, h5⟩

/-- Claim C9 (confirmed).  `escHtml_` maps `null`/`undefined` to the empty
string and otherwise replaces `&`, `<`, `>` (in that order), so its output
never contains a literal `<` or `>`; and `td_` renders a table cell as the
fixed `<td …>` wrapper around `escHtml_` of the value, which is how every
entity-derived field reaches the HTML tables (`adRowHtml`, `kwRowHtml`,
`assetRowHtml` build each cell with `td_`). -/
theorem c9_escape_html :
    (∀ v : Option String,
        (escHtml_ v).toList.all (fun c => c != '<' && c != '>') = true) ∧
    escHtml_ none = "" ∧
    (∀ v : Option String,
        td_ v = "<td style=\"vertical-align:top;border-top:1px solid #eee;\">"
            ++ escHtml_ v ++ "</td>") := by
  refine ⟨?_, rfl, fun v => rfl⟩
  intro v
  cases v with
  | none => rfl
  | some s =>
      rw [List.all_eq_true]
      intro c hc
      simp only [escHtml_, String.toList] at hc
      rcases mem_replChar hc with hgt | ⟨hc2, hne2⟩
      · have h4 : c = '&' ∨ c = 'g' ∨ c = 't' ∨ c = ';' := by simpa using hgt
        rcases h4 with rfl | rfl | rfl | rfl <;> decide
      · rcases mem_replChar hc2 with hlt | ⟨hc3, hne3⟩
        · have h4 : c = '&' ∨ c = 'l' ∨ c = 't' ∨ c = ';' := by simpa using hlt
          rcases h4 with rfl | rfl | rfl | rfl <;> decide
        · simp only [Bool.and_eq_true, bne_iff_ne]
          exact ⟨hne3, hne2⟩
